import Mathlib

/-!
Shallow embedding of the `fvm-utils` runtime crate: the production adapter
(`src/runtime/src/runtime/fvm.rs`) and the deterministic test double
(`src/runtime/src/test_utils.rs`).

Opaque external data (addresses, CIDs, IPLD blocks, serialized state blobs)
is modelled by `Nat` tokens.  The composition of CBOR encoding and the
Blake2b-256 CID construction used by `put_cbor(.., Code::Blake2b256)` is
modelled by an explicit function argument `encCid : Val -> Cid`; the
content-addressed store is an association list from CIDs to stored values.
Host syscall outcomes (`fvm::send::send`, `fvm::crypto::verify_signature`,
`fvm::actor::create_actor`, ...) are passed to each modelled operation as an
explicit argument, since they are decided outside the adapter.

Rust `panic!` / failed `assert!` / `.expect(..)` are modelled by the
`Outcome.panicked` constructor, distinct from returning a structured
`ActorError`.  Format arguments interpolated into Rust error messages are
dropped; only the static text of each message is kept.
-/

namespace FvmUtils

/-- Content identifiers, modelled as opaque tokens. -/
abbrev Cid := Nat

/-- Actor addresses, modelled as opaque tokens. -/
abbrev Address := Nat

/-- Method numbers (`u64`). -/
abbrev MethodNum := Nat

/-- Token amounts (`TokenAmount` = big integer). -/
abbrev TokenAmount := Int

/-- Raw parameter / return byte strings. -/
abbrev RawBytes := List Nat

/-- Opaque IPLD parameter blocks of the test double. -/
abbrev IpldBlock := Nat

/-- Actor IDs (`u64`). -/
abbrev ActorID := Nat

/-- Builtin actor types (`fvm_shared::actor::builtin::Type`), as tokens. -/
abbrev BuiltinType := Nat

/-- Exit codes: `fvm_shared::error::ExitCode` values (a `u32` newtype). -/
def ExitCode.OK : Nat := 0

/-- `ExitCode::SYS_SENDER_INVALID`. -/
def ExitCode.SYS_SENDER_INVALID : Nat := 1

/-- `ExitCode::SYS_SENDER_STATE_INVALID`. -/
def ExitCode.SYS_SENDER_STATE_INVALID : Nat := 2

/-- `ExitCode::SYS_ILLEGAL_INSTRUCTION`. -/
def ExitCode.SYS_ILLEGAL_INSTRUCTION : Nat := 4

/-- `ExitCode::SYS_INVALID_RECEIVER`. -/
def ExitCode.SYS_INVALID_RECEIVER : Nat := 5

/-- `ExitCode::SYS_INSUFFICIENT_FUNDS`. -/
def ExitCode.SYS_INSUFFICIENT_FUNDS : Nat := 6

/-- `ExitCode::SYS_OUT_OF_GAS`. -/
def ExitCode.SYS_OUT_OF_GAS : Nat := 7

/-- `ExitCode::SYS_ILLEGAL_EXIT_CODE`. -/
def ExitCode.SYS_ILLEGAL_EXIT_CODE : Nat := 9

/-- `ExitCode::SYS_ASSERTION_FAILED`. -/
def ExitCode.SYS_ASSERTION_FAILED : Nat := 10

/-- `ExitCode::SYS_MISSING_RETURN`. -/
def ExitCode.SYS_MISSING_RETURN : Nat := 11

/-- `ExitCode::FIRST_USER_EXIT_CODE`: first non-system exit code. -/
def ExitCode.FIRST_USER_EXIT_CODE : Nat := 16

/-- `ExitCode::USR_ILLEGAL_ARGUMENT`. -/
def ExitCode.USR_ILLEGAL_ARGUMENT : Nat := 16

/-- `ExitCode::USR_NOT_FOUND`. -/
def ExitCode.USR_NOT_FOUND : Nat := 17

/-- `ExitCode::USR_FORBIDDEN`. -/
def ExitCode.USR_FORBIDDEN : Nat := 18

/-- `ExitCode::USR_INSUFFICIENT_FUNDS`. -/
def ExitCode.USR_INSUFFICIENT_FUNDS : Nat := 19

/-- `ExitCode::USR_ILLEGAL_STATE`. -/
def ExitCode.USR_ILLEGAL_STATE : Nat := 20

/-- `ExitCode::USR_SERIALIZATION`. -/
def ExitCode.USR_SERIALIZATION : Nat := 21

/-- `ExitCode::USR_UNHANDLED_MESSAGE`. -/
def ExitCode.USR_UNHANDLED_MESSAGE : Nat := 22

/-- `ExitCode::USR_UNSPECIFIED`. -/
def ExitCode.USR_UNSPECIFIED : Nat := 23

/-- `ExitCode::USR_ASSERTION_FAILED`. -/
def ExitCode.USR_ASSERTION_FAILED : Nat := 24

/-- `ExitCode::is_success`: the code is `OK` (0). -/
def ExitCode.isSuccess (c : Nat) : Bool := c == 0

/-- `ExitCode::is_system_error`: the code is below `FIRST_USER_EXIT_CODE`. -/
def ExitCode.isSystemError (c : Nat) : Bool := c < ExitCode.FIRST_USER_EXIT_CODE

/-- Structured actor errors: `ActorError { exit_code, msg }`. -/
structure ActorError where
  exit_code : Nat
  msg : String
deriving DecidableEq, Repr

/-- The `actor_error!` macro / `ActorError::unchecked`: build an error. -/
def actorError (code : Nat) (m : String) : ActorError := ⟨code, m⟩

/-- Outcome of a modelled Rust call: a returned value, a returned
`ActorError`, or a Rust panic (failed `assert!` / `.expect(..)`). -/
inductive Outcome (α : Type) where
  | ok : α → Outcome α
  | err : ActorError → Outcome α
  | panicked : String → Outcome α
deriving DecidableEq, Repr

/-- Syscall error numbers (`fvm_shared::error::ErrorNumber`), keeping the
variants the adapter matches on and collapsing the rest into `other`. -/
inductive ErrorNumber where
  | notFound
  | insufficientFunds
  | limitExceeded
  | illegalArgument
  | other (n : Nat)
deriving DecidableEq, Repr

/-- In-memory content-addressed store: association list from CID to value. -/
abbrev Store (Val : Type) := List (Cid × Val)

/-- `Blockstore::get_cbor`: look a value up by CID. -/
def getCbor {Val : Type} (s : Store Val) (c : Cid) : Option Val :=
  s.lookup c

/-- `Blockstore::put_cbor(v, Code::Blake2b256)`: store `v` under the CID
`encCid v` (Blake2b-256 over the CBOR encoding, modelled by `encCid`) and
return that CID together with the extended store. -/
def putCbor {Val : Type} (encCid : Val → Cid) (s : Store Val) (v : Val) :
    Cid × Store Val :=
  (encCid v, (encCid v, v) :: s)

/-! Static texts of the error and panic messages the claims mention. -/

/-- Message of `assert_not_validated` in `fvm.rs`. -/
def msgMustValidateOnce : String := "Method must validate caller identity exactly once"

/-- Message of the trampoline abort when the caller was never validated. -/
def msgFailedToValidateCaller : String := "failed to validate caller"

/-- Message of the nested-transaction error of `MockRuntime::transaction`. -/
def msgNestedTransaction : String := "nested transaction"

/-- Message of the in-transaction guard of `FvmRuntime::send`. -/
def msgSendInTransaction : String := "send is not allowed during transaction"

/-- Message of the in-transaction guard of `FvmRuntime::create_actor`. -/
def msgCreateActorInTransaction : String := "create_actor is not allowed during transaction"

/-- Message of the in-transaction guard of `FvmRuntime::delete_actor`. -/
def msgDeleteActorInTransaction : String := "delete_actor is not allowed during transaction"

/-- Message of the in-transaction guard of the test double side effects. -/
def msgSideEffectInTransaction : String := "side-effect within transaction"

/-- Message of the `.expect(..)` on a missing state blob. -/
def msgStateNotExist : String := "State does not exist for actor state root"

/-- Message of `require_in_call` in the test double. -/
def msgOutsideCall : String := "invalid runtime invocation outside of method call"

/-- Message of the consumed-expectation assert in the test double. -/
def msgUnexpectedValidateAny : String := "unexpected validate-caller-any"

/-- Message of the empty-queue assert in `MockRuntime::send`. -/
def msgUnexpectedMessage : String := "unexpected message"

/-- Message of a failed `assert_eq!` between actual and expected send. -/
def msgAssertEqFailed : String := "assert_eq failed"

/-- Message of the insufficient-balance error of `MockRuntime::send`. -/
def msgValueExceedsBalance : String := "cannot send value exceeds balance"

/-- Message of the scripted failure exit of `MockRuntime::send`. -/
def msgExpectedMessageFail : String := "Expected message Fail"

/-- Message of `FvmRuntime::verify_signature` on any failure. -/
def msgInvalidSignature : String := "invalid signature"

/-- Message of the `.expect(..)` on a missing caller code CID. -/
def msgFailedLookupCallerCode : String := "failed to lookup caller code"

/-- Message of the forbidden error of `validate_immediate_caller_is`. -/
def msgCallerNotSupported : String := "caller is not one of supported"

/-- Message of the forbidden error of `validate_immediate_caller_type`. -/
def msgCallerTypeNotSupported : String := "caller cid type not one of supported"

/-- Message of `.expect(..)` in `MockRuntime::new_actor_address`. -/
def msgUnexpectedNewActorAddr : String := "unexpected call to new actor address"

/-- Message of `.expect(..)` in `MockRuntime::create_actor`. -/
def msgUnexpectedCreateActor : String := "unexpected call to create actor"

/-- Message of the create-actor mismatch assert in the test double. -/
def msgUnexpectedActorCreated : String := "unexpected actor being created"

/-- Message of the delete-actor panics in the test double. -/
def msgUnexpectedDeleteActor : String := "unexpected call to delete actor"

/-- Message of the send error of `FvmRuntime::send` on a failed remote exit. -/
def msgSendAborted : String := "send aborted"

/-- Message of `FvmRuntime::send` when the receiver is missing. -/
def msgReceiverNotFound : String := "receiver not found"

/-- Message of `FvmRuntime::send` on insufficient funds. -/
def msgNotEnoughFunds : String := "not enough funds"

/-- Message of `FvmRuntime::send` on the recursion limit. -/
def msgRecursionLimit : String := "recursion limit exceeded"

/-- Message of `FvmRuntime::send` on an unexpected syscall error. -/
def msgUnexpectedError : String := "unexpected error"

/-- Message of `FvmRuntime::create_actor` on `IllegalArgument`. -/
def msgFailedCreateActor : String := "failed to create actor"

/-- Message of `FvmRuntime::create_actor` on other syscall errors. -/
def msgCreateFailedUnknown : String := "create failed with unknown error"

/-! The production adapter `FvmRuntime` (`src/runtime/src/runtime/fvm.rs`). -/

/-- The mutable fields of the `FvmRuntime` struct.  The blockstore field is a
zero-sized handle and the policy is never consulted by the modelled
operations, so only the two flags remain. -/
structure FvmRuntime where
  in_transaction : Bool
  caller_validated : Bool
deriving DecidableEq, Repr

/-- `FvmRuntime::default()`: both flags start `false`. -/
def FvmRuntime.default : FvmRuntime :=
  { in_transaction := false, caller_validated := false }

/-- Host-side state reached through syscalls: the actor root CID
(`fvm::sself::root` / `set_root`) and the actor blockstore. -/
structure HostState (Val : Type) where
  root : Cid
  store : Store Val
deriving DecidableEq

/-- Host-provided invocation context consulted by the caller-validation
operations: the caller address, the actor-code registry
(`fvm::actor::get_actor_code_cid`) and the builtin-type registry
(`fvm::actor::get_builtin_actor_type`). -/
structure FvmContext where
  caller : Address
  actor_code_cids : List (Address × Cid)
  builtin_types : List (Cid × BuiltinType)
deriving DecidableEq

/-- `FvmRuntime::assert_not_validated`: error once the caller was
validated. -/
def fvmAssertNotValidated (rt : FvmRuntime) : Except ActorError Unit :=
  if rt.caller_validated then
    .error (actorError ExitCode.USR_ASSERTION_FAILED msgMustValidateOnce)
  else
    .ok ()

/-- `FvmRuntime::validate_immediate_caller_accept_any`. -/
def fvmValidateAcceptAny (rt : FvmRuntime) : Outcome Unit × FvmRuntime :=
  match fvmAssertNotValidated rt with
  | .error e => (.err e, rt)
  | .ok _ => (.ok (), { rt with caller_validated := true })

/-- `FvmRuntime::validate_immediate_caller_is`. -/
def fvmValidateCallerIs (ctx : FvmContext) (addresses : List Address)
    (rt : FvmRuntime) : Outcome Unit × FvmRuntime :=
  match fvmAssertNotValidated rt with
  | .error e => (.err e, rt)
  | .ok _ =>
    if addresses.any (fun a => a == ctx.caller) then
      (.ok (), { rt with caller_validated := true })
    else
      (.err (actorError ExitCode.USR_FORBIDDEN msgCallerNotSupported), rt)

/-- `FvmRuntime::validate_immediate_caller_type`: looks the caller code CID
up (panicking when absent, per `.expect("failed to lookup caller code")`),
resolves its builtin type, and accepts when that type is in the allowed
set. -/
def fvmValidateCallerType (ctx : FvmContext) (types : List BuiltinType)
    (rt : FvmRuntime) : Outcome Unit × FvmRuntime :=
  match fvmAssertNotValidated rt with
  | .error e => (.err e, rt)
  | .ok _ =>
    match ctx.actor_code_cids.lookup ctx.caller with
    | none => (.panicked msgFailedLookupCallerCode, rt)
    | some caller_cid =>
      match ctx.builtin_types.lookup caller_cid with
      | some typ =>
        if types.any (fun t => t == typ) then
          (.ok (), { rt with caller_validated := true })
        else
          (.err (actorError ExitCode.USR_FORBIDDEN msgCallerTypeNotSupported), rt)
      | none =>
        (.err (actorError ExitCode.USR_FORBIDDEN msgCallerTypeNotSupported), rt)

/-- `FvmRuntime::transaction`: read the root CID, load the state blob
(panicking when the blob is missing, per `.expect(..)`), run the closure
with `in_transaction` set, clear the flag, and on closure success write the
final state back and move the root to its CID.  The closure receives the
loaded state value and the mutable runtime flags, mirroring
`FnOnce(&mut C, &mut Self)`; the host root is not a field of the Rust
struct, so the closure cannot touch it.  Note the source has no nested-
transaction check. -/
def fvmTransaction {Val RT : Type} (encCid : Val → Cid)
    (f : Val → FvmRuntime → (Except ActorError RT) × Val × FvmRuntime)
    (h : HostState Val) (rt : FvmRuntime) :
    Outcome RT × HostState Val × FvmRuntime :=
  match getCbor h.store h.root with
  | none => (.panicked msgStateNotExist, h, rt)
  | some st =>
    match f st { rt with in_transaction := true } with
    | (.error e, _, rt2) => (.err e, h, { rt2 with in_transaction := false })
    | (.ok ret, st2, rt2) =>
      (.ok ret,
        { root := (putCbor encCid h.store st2).1,
          store := (putCbor encCid h.store st2).2 },
        { rt2 with in_transaction := false })

/-- The receipt of a host-level send syscall. -/
structure Receipt where
  exit_code : Nat
  return_data : RawBytes
deriving DecidableEq, Repr

/-- The exit-code renormalization inside `FvmRuntime::send` for a non-success
remote exit code. -/
def normalizeExitCode (code : Nat) : Nat :=
  if code == ExitCode.SYS_MISSING_RETURN
      || code == ExitCode.SYS_ILLEGAL_INSTRUCTION
      || code == ExitCode.SYS_ILLEGAL_EXIT_CODE then
    ExitCode.USR_UNSPECIFIED
  else if ExitCode.isSystemError code then
    ExitCode.USR_ASSERTION_FAILED
  else
    code

/-- `FvmRuntime::send`: guard against transactions, then classify the host
outcome (`fvm::send::send`), renormalizing non-success remote exit codes and
mapping syscall error numbers into the user-level taxonomy. -/
def fvmSend (rt : FvmRuntime) (hostResult : Except ErrorNumber Receipt) :
    Except ActorError RawBytes :=
  if rt.in_transaction then
    .error (actorError ExitCode.USR_ASSERTION_FAILED msgSendInTransaction)
  else
    match hostResult with
    | .ok ret =>
      if ExitCode.isSuccess ret.exit_code then
        .ok ret.return_data
      else
        .error (actorError (normalizeExitCode ret.exit_code) msgSendAborted)
    | .error e =>
      match e with
      | .notFound => .error (actorError ExitCode.USR_UNSPECIFIED msgReceiverNotFound)
      | .insufficientFunds =>
        .error (actorError ExitCode.USR_INSUFFICIENT_FUNDS msgNotEnoughFunds)
      | .limitExceeded =>
        .error (actorError ExitCode.USR_ASSERTION_FAILED msgRecursionLimit)
      | _ => .error (actorError ExitCode.USR_ASSERTION_FAILED msgUnexpectedError)

/-- `FvmRuntime::new_actor_address`: wraps the host-provided address with no
guard at all (in particular no `in_transaction` check). -/
def fvmNewActorAddress (hostAddr : Address) (rt : FvmRuntime) :
    Outcome Address × FvmRuntime :=
  (.ok hostAddr, rt)

/-- `FvmRuntime::create_actor`: guarded by `in_transaction`, then maps the
host syscall outcome. -/
def fvmCreateActor (hostResult : Except ErrorNumber Unit)
    (rt : FvmRuntime) : Outcome Unit × FvmRuntime :=
  if rt.in_transaction then
    (.err (actorError ExitCode.USR_ASSERTION_FAILED msgCreateActorInTransaction), rt)
  else
    match hostResult with
    | .ok _ => (.ok (), rt)
    | .error .illegalArgument =>
      (.err (actorError ExitCode.USR_ILLEGAL_ARGUMENT msgFailedCreateActor), rt)
    | .error _ =>
      (.err (actorError ExitCode.USR_ASSERTION_FAILED msgCreateFailedUnknown), rt)

/-- `FvmRuntime::delete_actor`: guarded by `in_transaction`, then propagates
the host syscall outcome of `fvm::sself::self_destruct`. -/
def fvmDeleteActor (hostResult : Except ActorError Unit)
    (rt : FvmRuntime) : Outcome Unit × FvmRuntime :=
  if rt.in_transaction then
    (.err (actorError ExitCode.USR_ASSERTION_FAILED msgDeleteActorInTransaction), rt)
  else
    match hostResult with
    | .ok _ => (.ok (), rt)
    | .error e => (.err e, rt)

/-- `FvmRuntime::verify_signature` (the `Primitives` impl): success exactly on
a host result of `Ok(true)`; `Ok(false)` and every syscall error collapse
into the same error value. -/
def fvmVerifySignature (hostResult : Except ErrorNumber Bool) :
    Except String Unit :=
  match hostResult with
  | .ok true => .ok ()
  | .ok false => .error msgInvalidSignature
  | .error _ => .error msgInvalidSignature

/-- Result of the `trampoline` entry point: an abort via `fvm::vm::abort`
with an exit code and message, or a returned data block. -/
inductive TrampolineResult where
  | abort (code : Nat) (msg : String)
  | ret (data : RawBytes)
deriving DecidableEq, Repr

/-- `trampoline`: build a default runtime, dispatch `invoke_method` on it
(modelled by the `invoke` argument, which may mutate the runtime flags), on a
dispatch error abort with that error, and on success abort with
`USR_ASSERTION_FAILED` / "failed to validate caller" unless
`caller_validated` became `true`. -/
def trampoline
    (invoke : FvmRuntime → (Except ActorError RawBytes) × FvmRuntime) :
    TrampolineResult :=
  match invoke FvmRuntime.default with
  | (.error e, _) => .abort e.exit_code e.msg
  | (.ok r, rt) =>
    if !rt.caller_validated then
      .abort ExitCode.USR_ASSERTION_FAILED msgFailedToValidateCaller
    else
      .ret r

/-! The test double `MockRuntime` (`src/runtime/src/test_utils.rs`). -/

/-- A queued send expectation (`ExpectedMessage`). -/
structure ExpectedMessage where
  to_addr : Address
  method : MethodNum
  params : Option IpldBlock
  value : TokenAmount
  send_return : Option IpldBlock
  exit_code : Nat
deriving DecidableEq, Repr

/-- A create-actor expectation (`ExpectCreateActor`). -/
structure ExpectCreateActor where
  code_id : Cid
  actor_id : ActorID
deriving DecidableEq, Repr

/-- A signature-verification expectation (`ExpectedVerifySig`); `result` is
`none` for `Ok(())` and `some m` for `Err(anyhow m)`. -/
structure ExpectedVerifySig where
  sig : Nat
  signer : Address
  plaintext : List Nat
  result : Option String
deriving DecidableEq, Repr

/-- The `Expectations` struct of the test double. -/
structure Expectations where
  expect_validate_caller_any : Bool
  expect_validate_caller_addr : Option (List Address)
  expect_validate_caller_type : Option (List Cid)
  expect_validate_caller_not_type : Option (List Cid)
  expect_sends : List ExpectedMessage
  expect_create_actor : Option ExpectCreateActor
  expect_delete_actor : Option Bool
  expect_verify_sigs : List ExpectedVerifySig
  expect_gas_charge : List Int
deriving DecidableEq, Repr

/-- `Expectations::default()`: everything unset and all queues empty. -/
def Expectations.default : Expectations :=
  ⟨false, none, none, none, [], none, none, [], []⟩

/-- `Expectations::reset`: replace everything with the default. -/
def Expectations.reset (_ : Expectations) : Expectations :=
  Expectations.default

/-- `Expectations::verify`: `true` exactly when none of its `assert!` calls
fires.  The source asserts on `expect_validate_caller_any`, `_addr`, `_type`,
`expect_sends`, `expect_create_actor`, `expect_delete_actor`,
`expect_verify_sigs` and `expect_gas_charge`; it has no assert for
`expect_validate_caller_not_type`. -/
def Expectations.verifyOk (e : Expectations) : Bool :=
  !e.expect_validate_caller_any
    && e.expect_validate_caller_addr.isNone
    && e.expect_validate_caller_type.isNone
    && e.expect_sends.isEmpty
    && e.expect_create_actor.isNone
    && e.expect_delete_actor.isNone
    && e.expect_verify_sigs.isEmpty
    && e.expect_gas_charge.isEmpty

/-- The fields of `MockRuntime` used by the modelled operations; the chain
context fields never consulted by them (epoch, miner, base fee, network
version, ...) are omitted. -/
structure MockRuntime (Val : Type) where
  caller : Address
  new_actor_addr : Option Address
  state : Option Cid
  balance : TokenAmount
  in_call : Bool
  store : Store Val
  in_transaction : Bool
  expectations : Expectations
deriving DecidableEq

/-- `MockRuntime::expect_validate_caller_any` (registration). -/
def expectValidateCallerAny {Val : Type} (rt : MockRuntime Val) :
    MockRuntime Val :=
  { rt with expectations :=
      { rt.expectations with expect_validate_caller_any := true } }

/-- `MockRuntime::expect_validate_caller_not_type` (registration). -/
def expectValidateCallerNotType {Val : Type} (types : List Cid)
    (rt : MockRuntime Val) : MockRuntime Val :=
  { rt with expectations :=
      { rt.expectations with expect_validate_caller_not_type := some types } }

/-- `MockRuntime::expect_send` (registration): push onto the FIFO queue. -/
def expectSend {Val : Type} (m : ExpectedMessage) (rt : MockRuntime Val) :
    MockRuntime Val :=
  { rt with expectations :=
      { rt.expectations with
          expect_sends := rt.expectations.expect_sends ++ [m] } }

/-- `MockRuntime::state`: unwrap the root CID (panicking when none, per
`.unwrap()`), then read the blob from the store (panicking when missing). -/
def mockState {Val : Type} (rt : MockRuntime Val) : Outcome Val :=
  match rt.state with
  | none => .panicked msgStateNotExist
  | some c =>
    match getCbor rt.store c with
    | none => .panicked msgStateNotExist
    | some v => .ok v

/-- `MockRuntime::transaction`: reject nesting with `assertion_failed`,
load the state, run the closure with `in_transaction` set, and only on
closure success write the final state back and move the root CID. -/
def mockTransaction {Val RT : Type} (encCid : Val → Cid)
    (f : Val → MockRuntime Val → (Except ActorError RT) × Val × MockRuntime Val)
    (rt : MockRuntime Val) : Outcome RT × MockRuntime Val :=
  if rt.in_transaction then
    (.err (actorError ExitCode.USR_ASSERTION_FAILED msgNestedTransaction), rt)
  else
    match mockState rt with
    | .panicked m => (.panicked m, rt)
    | .err e => (.err e, rt)
    | .ok v =>
      match f v { rt with in_transaction := true } with
      | (.ok ret, v2, rt2) =>
        (.ok ret,
          { rt2 with
              store := (putCbor encCid rt2.store v2).2,
              state := some (putCbor encCid rt2.store v2).1,
              in_transaction := false })
      | (.error e, _, rt2) => (.err e, { rt2 with in_transaction := false })

/-- `MockRuntime::validate_immediate_caller_accept_any`: requires `in_call`,
asserts a registered validate-caller-any expectation (panicking otherwise),
and consumes it.  The test double keeps no caller-validated flag. -/
def mockValidateAcceptAny {Val : Type} (rt : MockRuntime Val) :
    Outcome Unit × MockRuntime Val :=
  if !rt.in_call then
    (.panicked msgOutsideCall, rt)
  else if !rt.expectations.expect_validate_caller_any then
    (.panicked msgUnexpectedValidateAny, rt)
  else
    (.ok (),
      { rt with expectations :=
          { rt.expectations with expect_validate_caller_any := false } })

/-- `MockRuntime::send`: require `in_call`, reject sends inside a
transaction, panic on an empty expectation queue, pop the front expectation,
panic on any field mismatch, fail with `SYS_SENDER_STATE_INVALID` when the
value exceeds the balance (the popped expectation is not restored), and
otherwise debit the balance and produce the scripted outcome. -/
def mockSend {Val : Type} (rt : MockRuntime Val) (to_addr : Address)
    (method : MethodNum) (params : Option IpldBlock) (value : TokenAmount) :
    Outcome (Option IpldBlock) × MockRuntime Val :=
  if !rt.in_call then
    (.panicked msgOutsideCall, rt)
  else if rt.in_transaction then
    (.err (actorError ExitCode.USR_ASSERTION_FAILED msgSideEffectInTransaction), rt)
  else
    match rt.expectations.expect_sends with
    | [] => (.panicked msgUnexpectedMessage, rt)
    | expected :: rest =>
      let rt1 : MockRuntime Val :=
        { rt with expectations :=
            { rt.expectations with expect_sends := rest } }
      if expected.to_addr ≠ to_addr then (.panicked msgAssertEqFailed, rt1)
      else if expected.method ≠ method then (.panicked msgAssertEqFailed, rt1)
      else if expected.params ≠ params then (.panicked msgAssertEqFailed, rt1)
      else if expected.value ≠ value then (.panicked msgAssertEqFailed, rt1)
      else if value > rt.balance then
        (.err (actorError ExitCode.SYS_SENDER_STATE_INVALID msgValueExceedsBalance),
          rt1)
      else
        let rt2 : MockRuntime Val := { rt1 with balance := rt1.balance - value }
        if expected.exit_code = ExitCode.OK then
          (.ok expected.send_return, rt2)
        else
          (.err (actorError expected.exit_code msgExpectedMessageFail), rt2)

/-- `MockRuntime::new_actor_address`: requires `in_call`, unwraps the
configured address (panicking when none) and clears it.  There is no
`in_transaction` check. -/
def mockNewActorAddress {Val : Type} (rt : MockRuntime Val) :
    Outcome Address × MockRuntime Val :=
  if !rt.in_call then
    (.panicked msgOutsideCall, rt)
  else
    match rt.new_actor_addr with
    | none => (.panicked msgUnexpectedNewActorAddr, rt)
    | some a => (.ok a, { rt with new_actor_addr := none })

/-- `MockRuntime::create_actor`: requires `in_call`, rejects calls inside a
transaction, takes the create-actor expectation (panicking when none), and
panics unless the code CID and actor ID match it. -/
def mockCreateActor {Val : Type} (code_id : Cid) (actor_id : ActorID)
    (rt : MockRuntime Val) : Outcome Unit × MockRuntime Val :=
  if !rt.in_call then
    (.panicked msgOutsideCall, rt)
  else if rt.in_transaction then
    (.err (actorError ExitCode.USR_ASSERTION_FAILED msgSideEffectInTransaction), rt)
  else
    match rt.expectations.expect_create_actor with
    | none => (.panicked msgUnexpectedCreateActor, rt)
    | some exp =>
      let rt1 : MockRuntime Val :=
        { rt with expectations :=
            { rt.expectations with expect_create_actor := none } }
      if exp.code_id = code_id ∧ exp.actor_id = actor_id then
        (.ok (), rt1)
      else
        (.panicked msgUnexpectedActorCreated, rt1)

/-- `MockRuntime::delete_actor`: requires `in_call`, rejects calls inside a
transaction, takes the delete-actor expectation (panicking when none), and
panics unless the `burn_unspent` flag matches it. -/
def mockDeleteActor {Val : Type} (burn_unspent : Bool)
    (rt : MockRuntime Val) : Outcome Unit × MockRuntime Val :=
  if !rt.in_call then
    (.panicked msgOutsideCall, rt)
  else if rt.in_transaction then
    (.err (actorError ExitCode.USR_ASSERTION_FAILED msgSideEffectInTransaction), rt)
  else
    match rt.expectations.expect_delete_actor with
    | none => (.panicked msgUnexpectedDeleteActor, rt)
    | some exp =>
      let rt1 : MockRuntime Val :=
        { rt with expectations :=
            { rt.expectations with expect_delete_actor := none } }
      if exp = burn_unspent then
        (.ok (), rt1)
      else
        (.panicked msgUnexpectedDeleteActor, rt1)

/-! Theorems settling the claims. -/

/-- C4: in the production adapter send, when host dispatch succeeds with a
non-success remote exit code, `SYS_MISSING_RETURN`, `SYS_ILLEGAL_INSTRUCTION`
and `SYS_ILLEGAL_EXIT_CODE` are surfaced as `USR_UNSPECIFIED`, every other
system-tier code as `USR_ASSERTION_FAILED`, and every non-system code passes
through unchanged. -/
theorem c4_send_exit_code_normalization (rt : FvmRuntime) (ret : Receipt)
    (hrt : rt.in_transaction = false)
    (hns : ExitCode.isSuccess ret.exit_code = false) :
    ((ret.exit_code = ExitCode.SYS_MISSING_RETURN ∨
      ret.exit_code = ExitCode.SYS_ILLEGAL_INSTRUCTION ∨
      ret.exit_code = ExitCode.SYS_ILLEGAL_EXIT_CODE) →
      fvmSend rt (.ok ret) =
        .error (actorError ExitCode.USR_UNSPECIFIED msgSendAborted)) ∧
    ((ExitCode.isSystemError ret.exit_code = true ∧
      ret.exit_code ≠ ExitCode.SYS_MISSING_RETURN ∧
      ret.exit_code ≠ ExitCode.SYS_ILLEGAL_INSTRUCTION ∧
      ret.exit_code ≠ ExitCode.SYS_ILLEGAL_EXIT_CODE) →
      fvmSend rt (.ok ret) =
        .error (actorError ExitCode.USR_ASSERTION_FAILED msgSendAborted)) ∧
    (ExitCode.isSystemError ret.exit_code = false →
      fvmSend rt (.ok ret) =
        .error (actorError ret.exit_code msgSendAborted)) := by
  have hsend : fvmSend rt (.ok ret) =
      .error (actorError (normalizeExitCode ret.exit_code) msgSendAborted) := by
    simp [fvmSend, hrt, hns]
  refine ⟨?_, ?_, ?_⟩
  · rintro (hc | hc | hc) <;> rw [hsend, hc] <;> rfl
  · rintro ⟨h1, h2, h3, h4⟩
    have hb : (ret.exit_code == ExitCode.SYS_MISSING_RETURN
        || ret.exit_code == ExitCode.SYS_ILLEGAL_INSTRUCTION
        || ret.exit_code == ExitCode.SYS_ILLEGAL_EXIT_CODE) = false := by
      simp only [Bool.or_eq_false_iff, beq_eq_false_iff_ne, ne_eq]
      exact ⟨⟨h2, h3⟩, h4⟩
    rw [hsend]
    simp [normalizeExitCode, hb, h1]
  · intro h1
    have hge : ExitCode.FIRST_USER_EXIT_CODE ≤ ret.exit_code := by
      simpa [ExitCode.isSystemError] using h1
    have hb : (ret.exit_code == ExitCode.SYS_MISSING_RETURN
        || ret.exit_code == ExitCode.SYS_ILLEGAL_INSTRUCTION
        || ret.exit_code == ExitCode.SYS_ILLEGAL_EXIT_CODE) = false := by
      simp only [Bool.or_eq_false_iff, beq_eq_false_iff_ne, ne_eq,
        ExitCode.SYS_MISSING_RETURN, ExitCode.SYS_ILLEGAL_INSTRUCTION,
        ExitCode.SYS_ILLEGAL_EXIT_CODE]
      simp only [ExitCode.FIRST_USER_EXIT_CODE] at hge
      omega
    rw [hsend]
    simp [normalizeExitCode, hb, h1]

/-- Witness for C4: a remote `SYS_ILLEGAL_INSTRUCTION` surfaces as
`USR_UNSPECIFIED`, and a remote `USR_FORBIDDEN` passes through. -/
theorem c4_send_exit_code_normalization_witness :
    fvmSend FvmRuntime.default
        (.ok ⟨ExitCode.SYS_ILLEGAL_INSTRUCTION, []⟩) =
      .error (actorError ExitCode.USR_UNSPECIFIED msgSendAborted) ∧
    fvmSend FvmRuntime.default (.ok ⟨ExitCode.USR_FORBIDDEN, []⟩) =
      .error (actorError ExitCode.USR_FORBIDDEN msgSendAborted) :=
  ⟨(c4_send_exit_code_normalization FvmRuntime.default
      ⟨ExitCode.SYS_ILLEGAL_INSTRUCTION, []⟩ rfl rfl).1 (Or.inr (Or.inl rfl)),
   (c4_send_exit_code_normalization FvmRuntime.default
      ⟨ExitCode.USR_FORBIDDEN, []⟩ rfl rfl).2.2 rfl⟩

/-- C5: when method dispatch returns success but the caller-validated flag is
still false, the trampoline aborts with `USR_ASSERTION_FAILED` and the
message "failed to validate caller". -/
theorem c5_trampoline_requires_validation
    (invoke : FvmRuntime → (Except ActorError RawBytes) × FvmRuntime)
    (d : RawBytes) (rt : FvmRuntime)
    (hinv : invoke FvmRuntime.default = (.ok d, rt))
    (hval : rt.caller_validated = false) :
    trampoline invoke =
      .abort ExitCode.USR_ASSERTION_FAILED msgFailedToValidateCaller := by
  simp [trampoline, hinv, hval]

/-- Witness for C5: a dispatch that succeeds without validating the caller is
aborted with the fixed assertion-failed outcome. -/
theorem c5_trampoline_requires_validation_witness :
    trampoline (fun r => (.ok [], r)) =
      .abort ExitCode.USR_ASSERTION_FAILED msgFailedToValidateCaller :=
  c5_trampoline_requires_validation (fun r => (.ok [], r)) []
    FvmRuntime.default rfl rfl

/-- C8 counterexample: a registered validate-caller-not-type expectation is
never consumed, yet `verify` succeeds — `Expectations::verify` has no assert
for `expect_validate_caller_not_type`. -/
theorem c8_counterexample :
    (expectValidateCallerNotType [1]
        (⟨0, none, none, 0, false, [], false, Expectations.default⟩ :
          MockRuntime Nat)).expectations.expect_validate_caller_not_type =
      some [1] ∧
    Expectations.verifyOk
      (expectValidateCallerNotType [1]
        (⟨0, none, none, 0, false, [], false, Expectations.default⟩ :
          MockRuntime Nat)).expectations = true :=
  ⟨rfl, rfl⟩

/-- C8 amended: `verify` succeeds exactly when the validate-caller-any,
validate-caller-addr, validate-caller-type, send, create-actor, delete-actor,
signature-verification and gas-charge expectations are all consumed; an
unconsumed validate-caller-not-type expectation is not checked. -/
theorem c8_verify_requires_all_but_not_type (e : Expectations) :
    Expectations.verifyOk e = true ↔
      (e.expect_validate_caller_any = false ∧
       e.expect_validate_caller_addr = none ∧
       e.expect_validate_caller_type = none ∧
       e.expect_sends = [] ∧
       e.expect_create_actor = none ∧
       e.expect_delete_actor = none ∧
       e.expect_verify_sigs = [] ∧
       e.expect_gas_charge = []) := by
  simp [Expectations.verifyOk, Bool.and_eq_true, Bool.not_eq_true',
    Option.isNone_iff_eq_none, List.isEmpty_iff, and_assoc]

/-- C10: the production verify_signature succeeds exactly on a host result of
`Ok(true)`; a host `Ok(false)` and any host error collapse into the same
"invalid signature" error. -/
theorem c10_verify_signature_collapse (r : Except ErrorNumber Bool) :
    (fvmVerifySignature r = .ok () ↔ r = .ok true) ∧
    fvmVerifySignature (.ok false) = .error msgInvalidSignature ∧
    (∀ e : ErrorNumber,
      fvmVerifySignature (.error e) = .error msgInvalidSignature) := by
  refine ⟨?_, rfl, fun e => rfl⟩
  cases r with
  | ok b => cases b <;> simp [fvmVerifySignature]
  | error e => simp [fvmVerifySignature]

/-- C2 counterexample: on the test double, with a validate-caller-any
expectation registered, the first validation call succeeds and a second call
in the same invocation panics (test abort) instead of failing with an
`assertion_failed` outcome — the test double keeps no caller-validated
flag. -/
theorem c2_counterexample :
    (mockValidateAcceptAny
        (⟨0, none, none, 0, true, [],  false,
          ⟨true, none, none, none, [], none, none, [], []⟩⟩ :
          MockRuntime Nat)).1 = .ok () ∧
    (mockValidateAcceptAny
        (mockValidateAcceptAny
          (⟨0, none, none, 0, true, [], false,
            ⟨true, none, none, none, [], none, none, [], []⟩⟩ :
            MockRuntime Nat)).2).1 = .panicked msgUnexpectedValidateAny :=
  ⟨rfl, rfl⟩

/-- C2 amended: on the production adapter each caller-validation operation
either flips the caller-validated flag and succeeds or returns a forbidden
failure without flipping it, and any validation call while the flag is
already true fails with `assertion_failed` ("Method must validate caller
identity exactly once").  The test double keeps no such flag: its
validate-caller-any consumes a registered expectation and succeeds, and a
further call without a registered expectation aborts the test with a panic
rather than an `assertion_failed` outcome. -/
theorem c2_validation_state_machine :
    (∀ rt : FvmRuntime, rt.caller_validated = true →
      fvmValidateAcceptAny rt =
        (.err (actorError ExitCode.USR_ASSERTION_FAILED msgMustValidateOnce), rt) ∧
      (∀ (ctx : FvmContext) (addrs : List Address),
        fvmValidateCallerIs ctx addrs rt =
          (.err (actorError ExitCode.USR_ASSERTION_FAILED msgMustValidateOnce), rt)) ∧
      (∀ (ctx : FvmContext) (types : List BuiltinType),
        fvmValidateCallerType ctx types rt =
          (.err (actorError ExitCode.USR_ASSERTION_FAILED msgMustValidateOnce), rt))) ∧
    (∀ rt : FvmRuntime, rt.caller_validated = false →
      fvmValidateAcceptAny rt = (.ok (), { rt with caller_validated := true })) ∧
    (∀ (ctx : FvmContext) (addrs : List Address) (rt : FvmRuntime),
      rt.caller_validated = false →
      (addrs.any (fun a => a == ctx.caller) = true →
        fvmValidateCallerIs ctx addrs rt =
          (.ok (), { rt with caller_validated := true })) ∧
      (addrs.any (fun a => a == ctx.caller) = false →
        fvmValidateCallerIs ctx addrs rt =
          (.err (actorError ExitCode.USR_FORBIDDEN msgCallerNotSupported), rt))) ∧
    (∀ (ctx : FvmContext) (types : List BuiltinType) (rt : FvmRuntime)
        (ccid : Cid) (typ : BuiltinType),
      rt.caller_validated = false →
      ctx.actor_code_cids.lookup ctx.caller = some ccid →
      ctx.builtin_types.lookup ccid = some typ →
      (types.any (fun t => t == typ) = true →
        fvmValidateCallerType ctx types rt =
          (.ok (), { rt with caller_validated := true })) ∧
      (types.any (fun t => t == typ) = false →
        fvmValidateCallerType ctx types rt =
          (.err (actorError ExitCode.USR_FORBIDDEN msgCallerTypeNotSupported), rt))) ∧
    (∀ rt : MockRuntime Nat, rt.in_call = true →
      rt.expectations.expect_validate_caller_any = true →
      (mockValidateAcceptAny rt).1 = .ok () ∧
      ((mockValidateAcceptAny rt).2).expectations.expect_validate_caller_any
        = false) ∧
    (∀ rt : MockRuntime Nat, rt.in_call = true →
      rt.expectations.expect_validate_caller_any = false →
      mockValidateAcceptAny rt = (.panicked msgUnexpectedValidateAny, rt)) := by
  refine ⟨?_, ?_, ?_, ?_, ?_, ?_⟩
  · intro rt hval
    refine ⟨?_, fun ctx addrs => ?_, fun ctx types => ?_⟩ <;>
      simp [fvmValidateAcceptAny, fvmValidateCallerIs, fvmValidateCallerType,
        fvmAssertNotValidated, hval]
  · intro rt hval
    simp [fvmValidateAcceptAny, fvmAssertNotValidated, hval]
  · intro ctx addrs rt hval
    constructor <;> intro hany <;>
      simp [fvmValidateCallerIs, fvmAssertNotValidated, hval, hany]
  · intro ctx types rt ccid typ hval hcid htyp
    constructor <;> intro hany <;>
      simp [fvmValidateCallerType, fvmAssertNotValidated, hval, hcid, htyp, hany]
  · intro rt hcall hexp
    constructor <;> simp [mockValidateAcceptAny, hcall, hexp]
  · intro rt hcall hexp
    simp [mockValidateAcceptAny, hcall, hexp]

/-- Witness for C2 amended: concrete runs of the production validation
operations and of the test double validate-caller-any. -/
theorem c2_validation_state_machine_witness :
    fvmValidateAcceptAny ⟨false, true⟩ =
      (.err (actorError ExitCode.USR_ASSERTION_FAILED msgMustValidateOnce),
        ⟨false, true⟩) ∧
    fvmValidateAcceptAny ⟨false, false⟩ = (.ok (), ⟨false, true⟩) ∧
    mockValidateAcceptAny
        (⟨0, none, none, 0, true, [], false,
          ⟨false, none, none, none, [], none, none, [], []⟩⟩ :
          MockRuntime Nat) =
      (.panicked msgUnexpectedValidateAny,
        ⟨0, none, none, 0, true, [], false,
          ⟨false, none, none, none, [], none, none, [], []⟩⟩) :=
  ⟨(c2_validation_state_machine.1 ⟨false, true⟩ rfl).1,
   c2_validation_state_machine.2.1 ⟨false, false⟩ rfl,
   c2_validation_state_machine.2.2.2.2.2
     (⟨0, none, none, 0, true, [], false,
       ⟨false, none, none, none, [], none, none, [], []⟩⟩ : MockRuntime Nat)
     rfl rfl⟩

/-- C6 counterexample: with a matching send expectation for value 10 and a
balance of 5, the test double send fails with `SYS_SENDER_STATE_INVALID` and
the balance is untouched, but the expectation queue is now empty — the
popped expectation is consumed, not left in the queue. -/
theorem c6_counterexample :
    (mockSend
        (⟨0, none, none, 5, true, [], false,
          ⟨false, none, none, none, [⟨7, 3, none, 10, none, 0⟩],
            none, none, [], []⟩⟩ : MockRuntime Nat) 7 3 none 10).1 =
      .err (actorError ExitCode.SYS_SENDER_STATE_INVALID msgValueExceedsBalance) ∧
    ((mockSend
        (⟨0, none, none, 5, true, [], false,
          ⟨false, none, none, none, [⟨7, 3, none, 10, none, 0⟩],
            none, none, [], []⟩⟩ : MockRuntime Nat) 7 3 none 10).2).balance
      = 5 ∧
    ((mockSend
        (⟨0, none, none, 5, true, [], false,
          ⟨false, none, none, none, [⟨7, 3, none, 10, none, 0⟩],
            none, none, [], []⟩⟩ : MockRuntime Nat)
        7 3 none 10).2).expectations.expect_sends = [] :=
  ⟨rfl, rfl, rfl⟩

/-- C6 amended: when the next queued send expectation matches the call but
the transfer value exceeds the balance, the test double send fails with
`SYS_SENDER_STATE_INVALID` and the balance is unchanged, but the matched
expectation has been popped from the queue (it is consumed despite the
failure). -/
theorem c6_insufficient_balance_send {Val : Type} (rt : MockRuntime Val)
    (to_addr : Address) (m : MethodNum) (p : Option IpldBlock)
    (v : TokenAmount) (msg : ExpectedMessage) (rest : List ExpectedMessage)
    (h1 : rt.in_call = true) (h2 : rt.in_transaction = false)
    (h3 : rt.expectations.expect_sends = msg :: rest)
    (h4 : msg.to_addr = to_addr) (h5 : msg.method = m)
    (h6 : msg.params = p) (h7 : msg.value = v)
    (h8 : rt.balance < v) :
    mockSend rt to_addr m p v =
      (.err (actorError ExitCode.SYS_SENDER_STATE_INVALID msgValueExceedsBalance),
       { rt with expectations :=
           { rt.expectations with expect_sends := rest } }) := by
  simp [mockSend, h1, h2, h3, h4, h5, h6, h7, h8]

/-- Witness for C6 amended: the concrete insufficient-balance scenario. -/
theorem c6_insufficient_balance_send_witness :
    mockSend
        (⟨0, none, none, 5, true, [], false,
          ⟨false, none, none, none, [⟨7, 3, none, 10, none, 0⟩],
            none, none, [], []⟩⟩ : MockRuntime Nat) 7 3 none 10 =
      (.err (actorError ExitCode.SYS_SENDER_STATE_INVALID msgValueExceedsBalance),
       ⟨0, none, none, 5, true, [], false,
         ⟨false, none, none, none, [], none, none, [], []⟩⟩) :=
  c6_insufficient_balance_send
    (⟨0, none, none, 5, true, [], false,
      ⟨false, none, none, none, [⟨7, 3, none, 10, none, 0⟩],
        none, none, [], []⟩⟩ : MockRuntime Nat)
    7 3 none 10 ⟨7, 3, none, 10, none, 0⟩ []
    rfl rfl rfl rfl rfl rfl rfl (by decide)

/-- C9: when the next queued expectation matches, the balance suffices, and
the scripted exit code is non-success, the test double send returns an error
carrying that exit code while the balance has already been debited by the
transfer value — the debit is not rolled back. -/
theorem c9_failed_send_keeps_debit {Val : Type} (rt : MockRuntime Val)
    (to_addr : Address) (m : MethodNum) (p : Option IpldBlock)
    (v : TokenAmount) (msg : ExpectedMessage) (rest : List ExpectedMessage)
    (h1 : rt.in_call = true) (h2 : rt.in_transaction = false)
    (h3 : rt.expectations.expect_sends = msg :: rest)
    (h4 : msg.to_addr = to_addr) (h5 : msg.method = m)
    (h6 : msg.params = p) (h7 : msg.value = v)
    (h8 : v ≤ rt.balance) (h9 : msg.exit_code ≠ ExitCode.OK) :
    mockSend rt to_addr m p v =
      (.err (actorError msg.exit_code msgExpectedMessageFail),
       { rt with
           balance := rt.balance - v,
           expectations :=
             { rt.expectations with expect_sends := rest } }) := by
  have h8x : ¬ rt.balance < v := not_lt.mpr h8
  simp [mockSend, h1, h2, h3, h4, h5, h6, h7, h8x, h9]

/-- Witness for C9: a matching send for value 10 against balance 20 with
scripted exit code 5 errors with code 5 and leaves the balance at 10. -/
theorem c9_failed_send_keeps_debit_witness :
    mockSend
        (⟨0, none, none, 20, true, [], false,
          ⟨false, none, none, none, [⟨7, 3, none, 10, none, 5⟩],
            none, none, [], []⟩⟩ : MockRuntime Nat) 7 3 none 10 =
      (.err (actorError 5 msgExpectedMessageFail),
       ⟨0, none, none, 10, true, [], false,
         ⟨false, none, none, none, [], none, none, [], []⟩⟩) :=
  c9_failed_send_keeps_debit
    (⟨0, none, none, 20, true, [], false,
      ⟨false, none, none, none, [⟨7, 3, none, 10, none, 5⟩],
        none, none, [], []⟩⟩ : MockRuntime Nat)
    7 3 none 10 ⟨7, 3, none, 10, none, 5⟩ []
    rfl rfl rfl rfl rfl rfl rfl (by decide) (by decide)

/-- C7 counterexample: `new_actor_address` performs no TransactionScope
check on either variant — with `in_transaction = true` the production
adapter returns the host address and the test double returns its configured
address, neither failing with `assertion_failed`. -/
theorem c7_counterexample :
    fvmNewActorAddress 99 ⟨true, false⟩ = (.ok 99, ⟨true, false⟩) ∧
    (mockNewActorAddress
        (⟨0, some 42, none, 0, true, [], true, Expectations.default⟩ :
          MockRuntime Nat)).1 = .ok 42 :=
  ⟨rfl, rfl⟩

/-- C7 amended: `create_actor` and `delete_actor` fail with
`assertion_failed` while TransactionScope is active, on both variants;
`new_actor_address` performs no TransactionScope check on either variant
(the production adapter always returns the host address, and the test double
returns its configured address even inside a transaction). -/
theorem c7_lifecycle_transaction_guards :
    (∀ (hres : Except ErrorNumber Unit) (rt : FvmRuntime),
      rt.in_transaction = true →
      fvmCreateActor hres rt =
        (.err (actorError ExitCode.USR_ASSERTION_FAILED
          msgCreateActorInTransaction), rt)) ∧
    (∀ (hres : Except ActorError Unit) (rt : FvmRuntime),
      rt.in_transaction = true →
      fvmDeleteActor hres rt =
        (.err (actorError ExitCode.USR_ASSERTION_FAILED
          msgDeleteActorInTransaction), rt)) ∧
    (∀ (code_id : Cid) (actor_id : ActorID) (rt : MockRuntime Nat),
      rt.in_call = true → rt.in_transaction = true →
      mockCreateActor code_id actor_id rt =
        (.err (actorError ExitCode.USR_ASSERTION_FAILED
          msgSideEffectInTransaction), rt)) ∧
    (∀ (burn_unspent : Bool) (rt : MockRuntime Nat),
      rt.in_call = true → rt.in_transaction = true →
      mockDeleteActor burn_unspent rt =
        (.err (actorError ExitCode.USR_ASSERTION_FAILED
          msgSideEffectInTransaction), rt)) ∧
    (∀ (a : Address) (rt : FvmRuntime),
      fvmNewActorAddress a rt = (.ok a, rt)) ∧
    (∀ (a : Address) (rt : MockRuntime Nat),
      rt.in_call = true → rt.new_actor_addr = some a →
      mockNewActorAddress rt = (.ok a, { rt with new_actor_addr := none })) := by
  refine ⟨?_, ?_, ?_, ?_, fun a rt => rfl, ?_⟩
  · intro hres rt hin
    simp [fvmCreateActor, hin]
  · intro hres rt hin
    simp [fvmDeleteActor, hin]
  · intro code_id actor_id rt hcall hin
    simp [mockCreateActor, hcall, hin]
  · intro burn_unspent rt hcall hin
    simp [mockDeleteActor, hcall, hin]
  · intro a rt hcall haddr
    simp [mockNewActorAddress, hcall, haddr]

/-- Witness for C7 amended: concrete guarded and unguarded lifecycle calls
inside a transaction. -/
theorem c7_lifecycle_transaction_guards_witness :
    fvmCreateActor (.ok ()) ⟨true, false⟩ =
      (.err (actorError ExitCode.USR_ASSERTION_FAILED
        msgCreateActorInTransaction), ⟨true, false⟩) ∧
    mockDeleteActor true
        (⟨0, none, none, 0, true, [], true, Expectations.default⟩ :
          MockRuntime Nat) =
      (.err (actorError ExitCode.USR_ASSERTION_FAILED
        msgSideEffectInTransaction),
       ⟨0, none, none, 0, true, [], true, Expectations.default⟩) ∧
    mockNewActorAddress
        (⟨0, some 42, none, 0, true, [], true, Expectations.default⟩ :
          MockRuntime Nat) =
      (.ok 42, ⟨0, none, none, 0, true, [], true, Expectations.default⟩) :=
  ⟨c7_lifecycle_transaction_guards.1 (.ok ()) ⟨true, false⟩ rfl,
   c7_lifecycle_transaction_guards.2.2.2.1 true
     (⟨0, none, none, 0, true, [], true, Expectations.default⟩ :
       MockRuntime Nat) rfl rfl,
   c7_lifecycle_transaction_guards.2.2.2.2.2 42
     (⟨0, some 42, none, 0, true, [], true, Expectations.default⟩ :
       MockRuntime Nat) rfl rfl⟩

/-- C3 counterexample: the production transaction invoked with
`in_transaction = true` does not fail with `assertion_failed`; it reads the
root and the store and commits — here it returns the closure result and a
new root. -/
theorem c3_counterexample :
    fvmTransaction (fun v => v + 100) (fun v r => (Except.ok v, v, r))
        (⟨5, [(5, 7)]⟩ : HostState Nat) ⟨true, false⟩ =
      (.ok 7, ⟨107, [(107, 7), (5, 7)]⟩, ⟨false, false⟩) :=
  rfl

/-- C3 amended: only the test double rejects nested transactions: invoked
with TransactionScope already true it fails with `assertion_failed`
("nested transaction") and leaves the runtime untouched, before any state
or store access.  The production transaction has no nesting check: its
result does not depend on the incoming `in_transaction` flag at all (when
the root blob exists). -/
theorem c3_transaction_nesting :
    (∀ (Val RT : Type) (encCid : Val → Cid)
        (f : Val → MockRuntime Val →
          (Except ActorError RT) × Val × MockRuntime Val)
        (rt : MockRuntime Val),
      rt.in_transaction = true →
      mockTransaction encCid f rt =
        (.err (actorError ExitCode.USR_ASSERTION_FAILED msgNestedTransaction),
          rt)) ∧
    (∀ (Val RT : Type) (encCid : Val → Cid)
        (f : Val → FvmRuntime → (Except ActorError RT) × Val × FvmRuntime)
        (h : HostState Val) (rt : FvmRuntime) (v0 : Val),
      rt.in_transaction = true →
      getCbor h.store h.root = some v0 →
      fvmTransaction encCid f h rt =
        fvmTransaction encCid f h { rt with in_transaction := false }) := by
  constructor
  · intro Val RT encCid f rt hin
    simp [mockTransaction, hin]
  · intro Val RT encCid f h rt v0 hin hroot
    cases rt
    simp [fvmTransaction, hroot]

/-- Witness for C3 amended: a concrete nested call on the test double fails
with the nested-transaction error, and a concrete production call ignores
the flag. -/
theorem c3_transaction_nesting_witness :
    mockTransaction (fun v => v + 100) (fun v r => (Except.ok v, v, r))
        (⟨0, none, some 9, 0, true, [(9, 3)], true, Expectations.default⟩ :
          MockRuntime Nat) =
      (.err (actorError ExitCode.USR_ASSERTION_FAILED msgNestedTransaction),
        ⟨0, none, some 9, 0, true, [(9, 3)], true, Expectations.default⟩) ∧
    fvmTransaction (fun v => v + 100) (fun v r => (Except.ok v, v, r))
        (⟨5, [(5, 7)]⟩ : HostState Nat) ⟨true, false⟩ =
      fvmTransaction (fun v => v + 100) (fun v r => (Except.ok v, v, r))
        (⟨5, [(5, 7)]⟩ : HostState Nat) ⟨false, false⟩ :=
  ⟨c3_transaction_nesting.1 Nat Nat (fun v => v + 100)
      (fun v r => (Except.ok v, v, r))
      (⟨0, none, some 9, 0, true, [(9, 3)], true, Expectations.default⟩ :
        MockRuntime Nat) rfl,
   c3_transaction_nesting.2 Nat Nat (fun v => v + 100)
      (fun v r => (Except.ok v, v, r))
      (⟨5, [(5, 7)]⟩ : HostState Nat) ⟨true, false⟩ 7 rfl rfl⟩

/-- C1: transaction atomicity on both variants — when the closure returns an
error the state root is unchanged, and when it succeeds, the new state root
is the content identifier of the final state value and the closure result is
propagated.  The closure may mutate the state value and the runtime; on the
test double the hypothesis `hg` records that the closure does not replace
the root field directly (every contract operation reachable inside a
transaction leaves it untouched). -/
theorem c1_transaction_atomicity {Val RT : Type} (encCid : Val → Cid)
    (f : Val → FvmRuntime → (Except ActorError RT) × Val × FvmRuntime)
    (g : Val → MockRuntime Val → (Except ActorError RT) × Val × MockRuntime Val)
    (h : HostState Val) (rt : FvmRuntime) (m : MockRuntime Val)
    (v0 w0 : Val)
    (hv : getCbor h.store h.root = some v0)
    (hm : m.in_transaction = false)
    (hw : mockState m = .ok w0)
    (hg : ∀ v r, ((g v r).2.2).state = r.state) :
    (∀ e v2 rt2,
      f v0 { rt with in_transaction := true } = (.error e, v2, rt2) →
      (fvmTransaction encCid f h rt).1 = .err e ∧
      (fvmTransaction encCid f h rt).2.1.root = h.root) ∧
    (∀ ret v2 rt2,
      f v0 { rt with in_transaction := true } = (.ok ret, v2, rt2) →
      (fvmTransaction encCid f h rt).1 = .ok ret ∧
      (fvmTransaction encCid f h rt).2.1.root = encCid v2) ∧
    (∀ e v2 m2,
      g w0 { m with in_transaction := true } = (.error e, v2, m2) →
      (mockTransaction encCid g m).1 = .err e ∧
      (mockTransaction encCid g m).2.state = m.state) ∧
    (∀ ret v2 m2,
      g w0 { m with in_transaction := true } = (.ok ret, v2, m2) →
      (mockTransaction encCid g m).1 = .ok ret ∧
      (mockTransaction encCid g m).2.state = some (encCid v2)) := by
  refine ⟨?_, ?_, ?_, ?_⟩
  · intro e v2 rt2 hf
    constructor <;> simp [fvmTransaction, hv, hf]
  · intro ret v2 rt2 hf
    constructor <;> simp [fvmTransaction, hv, hf, putCbor]
  · intro e v2 m2 hgf
    have hst := hg w0 { m with in_transaction := true }
    rw [hgf] at hst
    constructor <;> simp [mockTransaction, hm, hw, hgf]
    simpa using hst
  · intro ret v2 m2 hgf
    constructor <;> simp [mockTransaction, hm, hw, hgf, putCbor]

/-- Witness for C1: a concrete successful transaction on each variant moves
the root to the content identifier of the final state value. -/
theorem c1_transaction_atomicity_witness :
    (fvmTransaction (fun v => v + 100)
        (fun v r => (Except.ok (v + 1), v + 1, r))
        (⟨5, [(5, 7)]⟩ : HostState Nat) FvmRuntime.default).1 = .ok 8 ∧
    (fvmTransaction (fun v => v + 100)
        (fun v r => (Except.ok (v + 1), v + 1, r))
        (⟨5, [(5, 7)]⟩ : HostState Nat) FvmRuntime.default).2.1.root = 108 ∧
    (mockTransaction (fun v => v + 100)
        (fun v r => (Except.ok (v + 1), v + 1, r))
        (⟨0, none, some 9, 0, true, [(9, 3)], false, Expectations.default⟩ :
          MockRuntime Nat)).2.state = some 104 := by
  have hthm := c1_transaction_atomicity (fun v => v + 100)
    (fun v r => (Except.ok (v + 1), v + 1, r))
    (fun v r => (Except.ok (v + 1), v + 1, r))
    (⟨5, [(5, 7)]⟩ : HostState Nat) FvmRuntime.default
    (⟨0, none, some 9, 0, true, [(9, 3)], false, Expectations.default⟩ :
      MockRuntime Nat)
    7 3 rfl rfl rfl (fun v r => rfl)
  exact ⟨(hthm.2.1 8 8 ⟨true, false⟩ rfl).1,
         (hthm.2.1 8 8 ⟨true, false⟩ rfl).2,
         (hthm.2.2.2 4 4
           (⟨0, none, some 9, 0, true, [(9, 3)], true, Expectations.default⟩ :
             MockRuntime Nat) rfl).2⟩

end FvmUtils
